import Mathlib

/-!
Verification of the judgment oracle of `src/app.py` (AI friendship court).

The design-bearing logic of the repository is the triple
`get_judgment_mock` / `get_judgment_llm` / `get_judgment` (lines 40-187 of
`src/app.py`).  We embed it shallowly, with CPython's numeric semantics
modelled exactly:

* Python integers are `ℤ`.  The expression `int(round(x / t * 100))` is
  IEEE-754 binary64 arithmetic: `x / t` (int by int) is the correctly
  rounded double of the exact quotient, `* 100` is a correctly rounded
  double multiplication, and `round` maps the exact value of the resulting
  double to the nearest integer with ties to even.  A finite double is an
  exact rational, so doubles are carried as their exact values in `ℚ` and
  each operation re-rounds with `roundD` (round to nearest, ties to even,
  onto the binary64 grid `2^(max (⌊logb 2 |x|⌋ - 52) (-1074))`).  CPython
  raises `OverflowError` when an int/int quotient rounds to magnitude
  `≥ 2^1024`, and a float product of that magnitude becomes `inf`, which the
  subsequent `round()` call turns into an `OverflowError` as well; both are
  modelled by the guards in `pyTrueDiv` and `pyMul` (the product's error is
  reported at the multiplication because nothing observes the `inf` before
  `round`).
* The JSON object produced by `json.loads` on the LLM reply is modelled by
  `LLMData`: each schema key is `some v` when present (with the value already
  of the type the extraction code expects) and `none` when absent, so that
  `data.get(k, default)` becomes `Option.getD`.
* `get_judgment_llm`'s network call, JSON parse and arithmetic can raise; the
  outcome of the whole attempt is an `Except String Judgment` value handed to
  `get_judgment`, which mirrors the `try/except` of lines 183-187.  The pure
  extraction and normalization of lines 156-175 is `get_judgment_llm_parsed`,
  split into `normalize_resp` (lines 158-164, fallible) and `judgment_of`
  (lines 166-175, total).
* The heuristic `get_judgment_mock` runs the same float pipeline unguarded:
  its quotient lies in `[0,1]` and the product in `[0,100]`, so neither step
  can overflow (`ratio_pipeline` proves these bounds), matching the fact
  that the Python code never raises on that path.
-/

/-- CPython `round` applied to the exact value of a finite double (and also
the final integer rounding inside `roundD`): round half to even. -/
def pyRound (q : ℚ) : ℤ :=
  if q - ⌊q⌋ < 1/2 then ⌊q⌋
  else if 1/2 < q - ⌊q⌋ then ⌊q⌋ + 1
  else if ⌊q⌋ % 2 = 0 then ⌊q⌋ else ⌊q⌋ + 1

/-- The binary64 grid exponent at `x`: ulp(x) = 2^(dExp x), with the
subnormal floor at `2^(-1074)`. -/
def dExp (x : ℚ) : ℤ := max (Int.log 2 |x| - 52) (-1074)

/-- Round an exact rational to the nearest IEEE-754 binary64 value (ties to
even), returned as its exact rational value.  Finite-range overflow is
checked by the callers (`pyTrueDiv`, `pyMul`). -/
def roundD (x : ℚ) : ℚ :=
  if x = 0 then 0 else (pyRound (x / 2 ^ dExp x) : ℚ) * 2 ^ dExp x

/-- CPython `int.__truediv__`: the correctly rounded double of the exact
quotient; `ZeroDivisionError` on a zero divisor, `OverflowError` when the
rounded result reaches magnitude `2^1024`. -/
def pyTrueDiv (a b : ℤ) : Except String ℚ :=
  if b = 0 then Except.error "ZeroDivisionError"
  else if |roundD ((a : ℚ) / (b : ℚ))| < 2 ^ (1024:ℕ) then
    Except.ok (roundD ((a : ℚ) / (b : ℚ)))
  else Except.error "OverflowError"

/-- IEEE-754 double multiplication: the correctly rounded exact product.  A
product of magnitude `≥ 2^1024` is `inf`; in this program the product is
immediately passed to `round()`, which raises `OverflowError` on `inf`, so
the error is reported here. -/
def pyMul (x y : ℚ) : Except String ℚ :=
  if |roundD (x * y)| < 2 ^ (1024:ℕ) then Except.ok (roundD (x * y))
  else Except.error "OverflowError"

/-- The characters CPython `str.isspace` accepts, hence what `str.strip()`
removes: U+0009-U+000D, the separators U+001C-U+001F, U+0020 space, U+0085,
U+00A0 no-break space, U+1680, U+2000-U+200A, U+2028, U+2029, U+202F,
U+205F and U+3000. -/
def pyWhitespace (c : Char) : Bool :=
  (9 ≤ c.toNat && c.toNat ≤ 13) || (28 ≤ c.toNat && c.toNat ≤ 31) ||
  c.toNat = 32 || c.toNat = 133 || c.toNat = 160 || c.toNat = 0x1680 ||
  (0x2000 ≤ c.toNat && c.toNat ≤ 0x200A) || c.toNat = 0x2028 ||
  c.toNat = 0x2029 || c.toNat = 0x202F || c.toNat = 0x205F || c.toNat = 0x3000

/-- Python `str.strip()`: remove leading and trailing whitespace. -/
def pyStrip (s : String) : String :=
  String.mk (((s.toList.dropWhile pyWhitespace).reverse.dropWhile pyWhitespace).reverse)

/-- The `Judgment` dataclass of `src/app.py`, lines 25-34. -/
structure Judgment where
  neutral_summary : String
  a_responsibility : ℤ
  b_responsibility : ℤ
  advice_a : String
  advice_b : String
  apology_template : String
  safety_flag : Bool := false
  safety_message : String := ""
  deriving Repr, DecidableEq

/-- The fixed `neutral_summary` text of `get_judgment_mock` (lines 52-56). -/
def mockNeutralSummary : String :=
  "From both perspectives, this looks like a mix of unmet expectations " ++
  "and communication gaps rather than one person being purely right or wrong. " ++
  "Both people had reasons for what they did, but those reasons weren’t clearly shared."

/-- The fixed `advice_a` text of `get_judgment_mock` (lines 58-62). -/
def mockAdviceA : String :=
  "Try to name what you needed earlier and out loud. Instead of waiting and " ++
  "hoping they guess, say something like: “This is important to me because…”. " ++
  "That gives them a fair chance to respond."

/-- The fixed `advice_b` text of `get_judgment_mock` (lines 64-68). -/
def mockAdviceB : String :=
  "Acknowledge the impact of your actions, even if you didn’t mean harm. " ++
  "You can say: “I see how that hurt you, even though I didn’t intend it.” " ++
  "Then share a bit of your own constraints calmly."

/-- The fixed `apology_template` text of `get_judgment_mock` (lines 70-75). -/
def mockApologyTemplate : String :=
  "Hey, I’ve been thinking about what happened. I’m sorry for the part I played " ++
  "in how things went. I didn’t mean to make you feel that way. Next time, I’ll " ++
  "try to be more clear about what I’m thinking and I’ll check in with you sooner " ++
  "instead of letting the tension build up."

/-- `get_judgment_mock` of `src/app.py`, lines 40-86: the heuristic fallback
strategy.  `a_share = int(round(len_a / total * 100))` in float semantics
(`roundD` after the division and after the multiplication), with
`total = max(len_a + len_b, 1)`, `b_share = 100 - a_share`; all text fields
are the fixed generic strings above; `tone` is accepted but unused.  The
quotient is in `[0,1]` and the product in `[0,100]`, so no step of the real
program can raise here and the unguarded pipeline is exact. -/
def get_judgment_mock (story_a story_b tone : String) : Judgment :=
  let len_a := story_a.length
  let len_b := story_b.length
  let total := max (len_a + len_b) 1
  let a_share := pyRound (roundD (roundD ((len_a : ℚ) / (total : ℚ)) * 100))
  let b_share := 100 - a_share
  { neutral_summary := mockNeutralSummary
    a_responsibility := a_share
    b_responsibility := b_share
    advice_a := mockAdviceA
    advice_b := mockAdviceB
    apology_template := mockApologyTemplate
    safety_flag := false
    safety_message := "" }

/-- The JSON object returned by `json.loads` on the LLM reply (line 156):
each schema key is `some v` when present with a value of the expected type,
`none` when absent, so `data.get(key, default)` is `Option.getD`. -/
structure LLMData where
  neutral_summary : Option String := none
  a_responsibility : Option Int := none
  b_responsibility : Option Int := none
  advice_a : Option String := none
  advice_b : Option String := none
  apology_template : Option String := none
  safety_flag : Option Bool := none
  safety_message : Option String := none
  deriving Repr, DecidableEq

/-- An LLM response carrying just the two responsibility fields. -/
def respData (a b : ℤ) : LLMData :=
  { a_responsibility := some a, b_responsibility := some b }

/-- Lines 158-164 of `get_judgment_llm`, after the `getD 50` defaults:
`total = a_resp + b_resp or 1; a_resp = int(round(a_resp / total * 100))`,
in float semantics; the division or the subsequent multiplication-and-round
can raise `OverflowError` for huge operands. -/
def normalize_resp (a b : ℤ) : Except String ℤ :=
  Except.bind (pyTrueDiv a (if a + b = 0 then 1 else a + b)) (fun q =>
    Except.bind (pyMul q 100) (fun p => Except.ok (pyRound p)))

/-- Lines 166-175 of `get_judgment_llm`: the `Judgment` constructor call.
Text fields default to `""` then are stripped; `safety_flag` defaults to
`False`; `a_resp` is the normalized value and `b_resp = 100 - a_resp`. -/
def judgment_of (data : LLMData) (a_resp : ℤ) : Judgment :=
  { neutral_summary := pyStrip (data.neutral_summary.getD "")
    a_responsibility := a_resp
    b_responsibility := 100 - a_resp
    advice_a := pyStrip (data.advice_a.getD "")
    advice_b := pyStrip (data.advice_b.getD "")
    apology_template := pyStrip (data.apology_template.getD "")
    safety_flag := data.safety_flag.getD false
    safety_message := pyStrip (data.safety_message.getD "") }

/-- Lines 156-175 of `get_judgment_llm`: extraction with defaults, float
normalization (fallible), then the `Judgment` construction. -/
def get_judgment_llm_parsed (data : LLMData) : Except String Judgment :=
  Except.map (judgment_of data)
    (normalize_resp (data.a_responsibility.getD 50) (data.b_responsibility.getD 50))

/-- `get_judgment` of `src/app.py`, lines 178-187: one attempt of the LLM
strategy; its outcome (a `Judgment`, or any raised exception abstracted as an
error string) is matched once — on success the value is returned unchanged,
on any exception the heuristic result is returned instead. -/
def get_judgment (llm_attempt : Except String Judgment)
    (story_a story_b tone : String) : Judgment :=
  match llm_attempt with
  | Except.ok j => j
  | Except.error _ => get_judgment_mock story_a story_b tone

/-- The two concrete narratives of the spec's end-to-end scenario (§8.8). -/
def story_a_ex : String := "We agreed to meet at 6 but they never showed up."

/-- Second narrative of the end-to-end scenario. -/
def story_b_ex : String := "I got stuck at work and forgot to text."

/-- A story of length 30, for the spec's proportionality instance (§8.3). -/
def story_len30 : String := "aaaaaaaaaaaaaaaaaaaaaaaaaaaaaa"

/-- A story of length 70, for the spec's proportionality instance (§8.3). -/
def story_len70 : String := "bbbbbbbbbbbbbbbbbbbbbbbbbbbbbbbbbbbbbbbbbbbbbbbbbbbbbbbbbbbbbbbbbbbbbb"

/-! ### Facts about `pyRound` (round half to even on `ℚ`) -/

theorem floor_le_pyRound (q : ℚ) : ⌊q⌋ ≤ pyRound q := by
  unfold pyRound
  split_ifs <;> omega

theorem pyRound_nonneg {q : ℚ} (h : 0 ≤ q) : 0 ≤ pyRound q :=
  le_trans (Int.le_floor.mpr (by exact_mod_cast h)) (floor_le_pyRound q)

theorem pyRound_le {q : ℚ} {n : ℤ} (h : q ≤ (n:ℚ)) : pyRound q ≤ n := by
  have hfl : ⌊q⌋ ≤ n := by
    have h2 : ⌊q⌋ ≤ ⌊(n:ℚ)⌋ := Int.floor_le_floor h
    simpa using h2
  unfold pyRound
  split_ifs with h1 h2 h3
  · exact hfl
  · have hge : (1:ℚ)/2 ≤ q - ⌊q⌋ := le_of_not_lt h1
    have hq := Int.floor_le q
    have hlt : ((⌊q⌋:ℤ):ℚ) < (n:ℚ) := by linarith
    have hlt2 : ⌊q⌋ < n := by exact_mod_cast hlt
    omega
  · exact hfl
  · have hge : (1:ℚ)/2 ≤ q - ⌊q⌋ := le_of_not_lt h1
    have hq := Int.floor_le q
    have hlt : ((⌊q⌋:ℤ):ℚ) < (n:ℚ) := by linarith
    have hlt2 : ⌊q⌋ < n := by exact_mod_cast hlt
    omega

theorem pyRound_intCast (n : ℤ) : pyRound (n:ℚ) = n := by
  unfold pyRound
  rw [Int.floor_intCast, sub_self]
  norm_num

theorem pyRound_eq_of_lt {n : ℤ} {q : ℚ} (h1 : (n:ℚ) ≤ q) (h2 : q < (n:ℚ) + 1/2) :
    pyRound q = n := by
  have hfl : ⌊q⌋ = n := Int.floor_eq_iff.mpr ⟨h1, by linarith⟩
  have hc : q - ((⌊q⌋:ℤ):ℚ) < 1/2 := by rw [hfl]; linarith
  unfold pyRound
  rw [if_pos hc, hfl]

theorem pyRound_eq_of_half_lt {n : ℤ} {q : ℚ} (h1 : (n:ℚ) - 1/2 < q) (h2 : q ≤ (n:ℚ)) :
    pyRound q = n := by
  rcases eq_or_lt_of_le h2 with heq | hlt
  · rw [heq, pyRound_intCast]
  · have hfl : ⌊q⌋ = n - 1 := by
      apply Int.floor_eq_iff.mpr
      constructor
      · push_cast
        linarith
      · push_cast
        linarith
    have hc1 : ¬ (q - ((⌊q⌋:ℤ):ℚ) < 1/2) := by rw [hfl]; push_cast; linarith
    have hc2 : (1/2:ℚ) < q - ((⌊q⌋:ℤ):ℚ) := by rw [hfl]; push_cast; linarith
    unfold pyRound
    rw [if_neg hc1, if_pos hc2, hfl]
    ring

theorem pyRound_eq_of_abs_lt {n : ℤ} {q : ℚ} (h : |q - (n:ℚ)| < 1/2) : pyRound q = n := by
  rw [abs_lt] at h
  obtain ⟨h1, h2⟩ := h
  rcases le_or_lt (n:ℚ) q with hle | hlt
  · exact pyRound_eq_of_lt hle (by linarith)
  · exact pyRound_eq_of_half_lt (by linarith) hlt.le

theorem pyRound_err (q : ℚ) : |(pyRound q : ℚ) - q| ≤ 1/2 := by
  have hfl := Int.floor_le q
  have hfl2 := Int.lt_floor_add_one q
  unfold pyRound
  split_ifs with h1 h2 h3
  · rw [abs_le]
    constructor <;> linarith
  · rw [abs_le]
    push_cast
    constructor <;> linarith
  · have he : q - ((⌊q⌋:ℤ):ℚ) = 1/2 := le_antisymm (le_of_not_lt h2) (le_of_not_lt h1)
    rw [abs_le]
    constructor <;> linarith
  · have he : q - ((⌊q⌋:ℤ):ℚ) = 1/2 := le_antisymm (le_of_not_lt h2) (le_of_not_lt h1)
    rw [abs_le]
    push_cast
    constructor <;> linarith

/-! ### Facts about the binary64 rounding `roundD` -/

theorem two_zpow_pos (n : ℤ) : (0:ℚ) < 2 ^ n := zpow_pos (by norm_num) n

theorem two_zpow_neg_nat (k : ℕ) : (2:ℚ) ^ (-(k:ℤ)) = ((2:ℚ) ^ k)⁻¹ := by
  rw [zpow_neg, zpow_natCast]

theorem log2_le_of_le {x : ℚ} {z : ℤ} (hx : 0 < x) (h : x ≤ (2:ℚ) ^ z) :
    Int.log 2 x ≤ z := by
  have h2 : Int.log 2 x ≤ Int.log 2 ((2:ℚ) ^ z) := Int.log_mono_right hx h
  have h3 : Int.log 2 (((2:ℕ):ℚ) ^ z) = z := Int.log_zpow (by norm_num) z
  push_cast at h3
  omega

theorem log2_lt_of_lt {x : ℚ} {z : ℤ} (hx : 0 < x) (h : x < (2:ℚ) ^ z) :
    Int.log 2 x < z := by
  have h2 := (Int.lt_zpow_iff_log_lt (b := 2) (R := ℚ) (by norm_num) hx (x := z))
  push_cast at h2
  exact h2.mp h

theorem le_log2_of_le {x : ℚ} {z : ℤ} (hx : 0 < x) (h : (2:ℚ) ^ z ≤ x) :
    z ≤ Int.log 2 x := by
  have h2 := (Int.zpow_le_iff_le_log (b := 2) (R := ℚ) (by norm_num) hx (x := z))
  push_cast at h2
  exact h2.mp h

theorem roundD_zero : roundD 0 = 0 := by
  unfold roundD
  simp

theorem roundD_nonneg {x : ℚ} (hx : 0 ≤ x) : 0 ≤ roundD x := by
  unfold roundD
  split_ifs with h
  · exact le_refl 0
  · have hp := two_zpow_pos (dExp x)
    have h2 : 0 ≤ pyRound (x / 2 ^ dExp x) := pyRound_nonneg (by positivity)
    have h3 : (0:ℚ) ≤ (pyRound (x / 2 ^ dExp x) : ℚ) := by exact_mod_cast h2
    exact mul_nonneg h3 hp.le

theorem dExp_le {x : ℚ} {k : ℤ} (hk : -1022 ≤ k) (hx : |x| ≤ 2 ^ k) (hx0 : x ≠ 0) :
    dExp x ≤ k - 52 := by
  have h0 : 0 < |x| := abs_pos.mpr hx0
  have hlog : Int.log 2 |x| ≤ k := log2_le_of_le h0 hx
  unfold dExp
  omega

theorem roundD_le_int {x : ℚ} {c : ℤ} (h0 : 0 ≤ x) (hc : x ≤ (c:ℚ))
    (hs : x < (2:ℚ) ^ (53:ℤ)) : roundD x ≤ (c:ℚ) := by
  unfold roundD
  split_ifs with h
  · calc (0:ℚ) = x := h.symm
      _ ≤ (c:ℚ) := hc
  · have hxpos : 0 < x := lt_of_le_of_ne h0 (Ne.symm h)
    have hlog : Int.log 2 |x| < 53 := by
      rw [abs_of_nonneg h0]
      exact log2_lt_of_lt hxpos hs
    have hg : dExp x ≤ 0 := by
      unfold dExp
      omega
    obtain ⟨k, hk⟩ : ∃ k : ℕ, dExp x = -(k:ℤ) := ⟨(-dExp x).toNat, by omega⟩
    have h2g : (2:ℚ) ^ dExp x = ((2:ℚ) ^ k)⁻¹ := by rw [hk, two_zpow_neg_nat]
    have hdiv : x / 2 ^ dExp x = x * 2 ^ k := by rw [h2g, div_eq_mul_inv, inv_inv]
    have hb : x * (2:ℚ) ^ k ≤ ((c * 2 ^ k : ℤ):ℚ) := by
      push_cast
      exact mul_le_mul_of_nonneg_right hc (by positivity)
    have hpy : pyRound (x / 2 ^ dExp x) ≤ c * 2 ^ k := pyRound_le (by rw [hdiv]; exact hb)
    calc (pyRound (x / 2 ^ dExp x) : ℚ) * 2 ^ dExp x
        ≤ ((c * 2 ^ k : ℤ):ℚ) * 2 ^ dExp x :=
          mul_le_mul_of_nonneg_right (by exact_mod_cast hpy) (two_zpow_pos _).le
      _ = (c:ℚ) := by
          rw [h2g]
          push_cast
          rw [mul_assoc, mul_inv_cancel₀ (by positivity : (2:ℚ) ^ k ≠ 0), mul_one]

theorem roundD_err {x : ℚ} {k : ℤ} (hk : -1022 ≤ k) (hx : |x| ≤ 2 ^ k) :
    |roundD x - x| ≤ 2 ^ (k - 53) := by
  unfold roundD
  split_ifs with h
  · rw [h]
    simp
    exact (two_zpow_pos _).le
  · have hg : dExp x ≤ k - 52 := dExp_le hk hx h
    have herr := pyRound_err (x / 2 ^ dExp x)
    have hrw : (pyRound (x / 2 ^ dExp x) : ℚ) * 2 ^ dExp x - x
        = ((pyRound (x / 2 ^ dExp x) : ℚ) - x / 2 ^ dExp x) * 2 ^ dExp x := by
      field_simp
    rw [hrw, abs_mul, abs_of_pos (two_zpow_pos _)]
    calc |(pyRound (x / 2 ^ dExp x) : ℚ) - x / 2 ^ dExp x| * 2 ^ dExp x
        ≤ (1/2) * 2 ^ dExp x := mul_le_mul_of_nonneg_right herr (two_zpow_pos _).le
      _ ≤ (1/2) * 2 ^ (k - 52) := by
          apply mul_le_mul_of_nonneg_left (zpow_le_zpow_right₀ (by norm_num) hg) (by norm_num)
      _ = 2 ^ (k - 53) := by
          rw [show k - 53 = (-1) + (k - 52) by ring, zpow_add₀ (by norm_num : (2:ℚ) ≠ 0)]
          norm_num

theorem roundD_eq_of {x : ℚ} {g M : ℤ} (hg : -1074 ≤ g)
    (h1 : (2:ℚ) ^ (g + 52) ≤ |x|) (h2 : |x| < (2:ℚ) ^ (g + 53))
    (hM : pyRound (x / 2 ^ g) = M) :
    roundD x = (M:ℚ) * 2 ^ g := by
  have hx0 : x ≠ 0 := by
    intro hx
    rw [hx, abs_zero] at h1
    exact absurd h1 (not_le.mpr (two_zpow_pos _))
  have hxpos : 0 < |x| := abs_pos.mpr hx0
  have hlb : g + 52 ≤ Int.log 2 |x| := le_log2_of_le hxpos h1
  have hub : Int.log 2 |x| < g + 53 := log2_lt_of_lt hxpos h2
  have hd : dExp x = g := by
    unfold dExp
    omega
  unfold roundD
  rw [if_neg hx0, hd, hM]

/-! ### `Except` plumbing and unfolding equations -/

theorem except_bind_ok {α β : Type} (x : α) (f : α → Except String β) :
    Except.bind (Except.ok x) f = f x := rfl

theorem except_map_ok {α β : Type} (f : α → β) (x : α) :
    Except.map f (Except.ok x : Except String α) = Except.ok (f x) := rfl

theorem map_ok_inv {α β : Type} {f : α → β} {e : Except String α} {y : β}
    (h : Except.map f e = Except.ok y) : ∃ x, e = Except.ok x ∧ y = f x := by
  cases e with
  | error s => simp [Except.map] at h
  | ok x =>
    rw [except_map_ok] at h
    exact ⟨x, rfl, (Except.ok.inj h).symm⟩

theorem get_judgment_mock_a (story_a story_b tone : String) :
    (get_judgment_mock story_a story_b tone).a_responsibility =
      pyRound (roundD (roundD ((story_a.length : ℚ) /
        ((max (story_a.length + story_b.length) 1 : ℕ) : ℚ)) * 100)) := rfl

theorem get_judgment_mock_b (story_a story_b tone : String) :
    (get_judgment_mock story_a story_b tone).b_responsibility =
      100 - (get_judgment_mock story_a story_b tone).a_responsibility := rfl

theorem judgment_of_a (data : LLMData) (r : ℤ) :
    (judgment_of data r).a_responsibility = r := rfl

theorem judgment_of_b (data : LLMData) (r : ℤ) :
    (judgment_of data r).b_responsibility = 100 - r := rfl

theorem parsed_def (data : LLMData) :
    get_judgment_llm_parsed data =
      Except.map (judgment_of data)
        (normalize_resp (data.a_responsibility.getD 50)
          (data.b_responsibility.getD 50)) := rfl

theorem pyTrueDiv_eval {a b : ℤ} {q : ℚ} (hb : b ≠ 0)
    (hq : roundD ((a:ℚ) / (b:ℚ)) = q) (hlt : |q| < 2 ^ (1024:ℕ)) :
    pyTrueDiv a b = Except.ok q := by
  unfold pyTrueDiv
  rw [if_neg hb, hq, if_pos hlt]

theorem pyMul_eval {x y p : ℚ} (hp : roundD (x * y) = p) (hlt : |p| < 2 ^ (1024:ℕ)) :
    pyMul x y = Except.ok p := by
  unfold pyMul
  rw [hp, if_pos hlt]

theorem normalize_resp_eval {a b total : ℤ} {q p : ℚ}
    (ht : (if a + b = 0 then 1 else a + b) = total) (ht0 : total ≠ 0)
    (hq : roundD ((a:ℚ) / (total:ℚ)) = q) (hq1 : |q| < 2 ^ (1024:ℕ))
    (hp : roundD (q * 100) = p) (hp1 : |p| < 2 ^ (1024:ℕ)) :
    normalize_resp a b = Except.ok (pyRound p) := by
  unfold normalize_resp
  rw [ht, pyTrueDiv_eval ht0 hq hq1]
  simp only [except_bind_ok]
  rw [pyMul_eval hp hp1]
  simp only [except_bind_ok]

/-! ### Bounds through the float pipeline on a ratio in `[0, 1]` -/

theorem ratio_pipeline {x : ℚ} (h0 : 0 ≤ x) (h1 : x ≤ 1) :
    0 ≤ roundD x ∧ roundD x ≤ 1 ∧
    0 ≤ roundD (roundD x * 100) ∧ roundD (roundD x * 100) ≤ 100 ∧
    0 ≤ pyRound (roundD (roundD x * 100)) ∧ pyRound (roundD (roundD x * 100)) ≤ 100 := by
  have hq0 : 0 ≤ roundD x := roundD_nonneg h0
  have hq1 : roundD x ≤ 1 := by
    have h := roundD_le_int (c := 1) h0 (by exact_mod_cast h1)
      (lt_of_le_of_lt h1 (by norm_num))
    exact_mod_cast h
  have hp0 : 0 ≤ roundD (roundD x * 100) := roundD_nonneg (by positivity)
  have hp100 : roundD (roundD x * 100) ≤ 100 := by
    have hle : roundD x * 100 ≤ (100:ℚ) := by nlinarith
    have h := roundD_le_int (c := 100) (by positivity) (by exact_mod_cast hle)
      (lt_of_le_of_lt hle (by norm_num))
    exact_mod_cast h
  have hr0 : 0 ≤ pyRound (roundD (roundD x * 100)) := pyRound_nonneg hp0
  have hr100 : pyRound (roundD (roundD x * 100)) ≤ 100 := pyRound_le (by exact_mod_cast hp100)
  exact ⟨hq0, hq1, hp0, hp100, hr0, hr100⟩

theorem normalize_ok_of_nonneg {a b : ℤ} (ha : 0 ≤ a) (hb : 0 ≤ b) :
    ∃ r : ℤ, normalize_resp a b = Except.ok r ∧ 0 ≤ r ∧ r ≤ 100 := by
  obtain ⟨T, hTeq, hTpos, hAT⟩ :
      ∃ T : ℤ, (if a + b = 0 then 1 else a + b) = T ∧ 0 < T ∧ a ≤ T := by
    by_cases hz : a + b = 0
    · exact ⟨1, if_pos hz, one_pos, by omega⟩
    · exact ⟨a + b, if_neg hz, by omega, by omega⟩
  have hx0 : (0:ℚ) ≤ (a:ℚ) / (T:ℚ) :=
    div_nonneg (by exact_mod_cast ha) (by exact_mod_cast hTpos.le)
  have hx1 : (a:ℚ) / (T:ℚ) ≤ 1 := by
    rw [div_le_one (by exact_mod_cast hTpos)]
    exact_mod_cast hAT
  obtain ⟨hq0, hq1, hp0, hp100, hr0, hr100⟩ := ratio_pipeline hx0 hx1
  refine ⟨pyRound (roundD (roundD ((a:ℚ) / (T:ℚ)) * 100)), ?_, hr0, hr100⟩
  apply normalize_resp_eval hTeq (by omega) rfl ?_ rfl ?_
  · rw [abs_of_nonneg hq0]
    exact lt_of_le_of_lt hq1 (by norm_num)
  · rw [abs_of_nonneg hp0]
    exact lt_of_le_of_lt hp100 (by norm_num)

/-! ### Concrete double roundings, checked against the binary64 grid -/

theorem roundD_3_10 : roundD ((3:ℚ)/10) = (5404319552844595:ℚ) * 2 ^ (-54:ℤ) := by
  have h := roundD_eq_of (x := (3:ℚ)/10) (g := -54) (M := 5404319552844595)
    (by norm_num)
    (by rw [abs_of_nonneg (by positivity)]; norm_num)
    (by rw [abs_of_nonneg (by positivity)]; norm_num)
    (by
      have hv : (3:ℚ)/10 / 2 ^ (-54:ℤ) = 27021597764222976/5 := by norm_num
      rw [hv]
      apply pyRound_eq_of_lt <;> norm_num)
  rw [h]
  norm_num

theorem roundD_3_10_mul100 :
    roundD ((5404319552844595:ℚ) * 2 ^ (-54:ℤ) * 100) = 30 := by
  have h := roundD_eq_of (x := (5404319552844595:ℚ) * 2 ^ (-54:ℤ) * 100)
    (g := -48) (M := 8444249301319680)
    (by norm_num)
    (by rw [abs_of_nonneg (by positivity)]; norm_num)
    (by rw [abs_of_nonneg (by positivity)]; norm_num)
    (by
      have hv : (5404319552844595:ℚ) * 2 ^ (-54:ℤ) * 100 / 2 ^ (-48:ℤ) =
          135107988821114875/16 := by norm_num
      rw [hv]
      apply pyRound_eq_of_half_lt <;> norm_num)
  rw [h]
  norm_num

theorem roundD_16_29 : roundD ((16:ℚ)/29) = (4969489243995030:ℚ) * 2 ^ (-53:ℤ) := by
  have h := roundD_eq_of (x := (16:ℚ)/29) (g := -53) (M := 4969489243995030)
    (by norm_num)
    (by rw [abs_of_nonneg (by positivity)]; norm_num)
    (by rw [abs_of_nonneg (by positivity)]; norm_num)
    (by
      have hv : (16:ℚ)/29 / 2 ^ (-53:ℤ) = 144115188075855872/29 := by norm_num
      rw [hv]
      apply pyRound_eq_of_lt <;> norm_num)
  rw [h]
  norm_num

theorem roundD_16_29_mul100 :
    roundD ((4969489243995030:ℚ) * 2 ^ (-53:ℤ) * 100) =
      (7764826943742234:ℚ) * 2 ^ (-47:ℤ) := by
  have h := roundD_eq_of (x := (4969489243995030:ℚ) * 2 ^ (-53:ℤ) * 100)
    (g := -47) (M := 7764826943742234)
    (by norm_num)
    (by rw [abs_of_nonneg (by positivity)]; norm_num)
    (by rw [abs_of_nonneg (by positivity)]; norm_num)
    (by
      have hv : (4969489243995030:ℚ) * 2 ^ (-53:ℤ) * 100 / 2 ^ (-47:ℤ) =
          62118615549937875/8 := by norm_num
      rw [hv]
      apply pyRound_eq_of_lt <;> norm_num)
  rw [h]
  norm_num

theorem pyRound_c9 : pyRound ((7764826943742234:ℚ) * 2 ^ (-47:ℤ)) = 55 := by
  have hv : (7764826943742234:ℚ) * 2 ^ (-47:ℤ) = 3882413471871117/70368744177664 := by
    norm_num
  rw [hv]
  apply pyRound_eq_of_lt <;> norm_num

theorem roundD_half : roundD ((1:ℚ)/2) = 1/2 := by
  have h := roundD_eq_of (x := (1:ℚ)/2) (g := -53) (M := 4503599627370496)
    (by norm_num)
    (by rw [abs_of_nonneg (by positivity)]; norm_num)
    (by rw [abs_of_nonneg (by positivity)]; norm_num)
    (by
      have hv : (1:ℚ)/2 / 2 ^ (-53:ℤ) = 4503599627370496 := by norm_num
      rw [hv]
      exact_mod_cast pyRound_intCast 4503599627370496)
  rw [h]
  norm_num

theorem roundD_50 : roundD (50:ℚ) = 50 := by
  have h := roundD_eq_of (x := (50:ℚ)) (g := -47) (M := 7036874417766400)
    (by norm_num)
    (by rw [abs_of_nonneg (by positivity)]; norm_num)
    (by rw [abs_of_nonneg (by positivity)]; norm_num)
    (by
      have hv : (50:ℚ) / 2 ^ (-47:ℤ) = 7036874417766400 := by norm_num
      rw [hv]
      exact_mod_cast pyRound_intCast 7036874417766400)
  rw [h]
  norm_num

theorem roundD_3half : roundD ((3:ℚ)/2) = 3/2 := by
  have h := roundD_eq_of (x := (3:ℚ)/2) (g := -52) (M := 6755399441055744)
    (by norm_num)
    (by rw [abs_of_nonneg (by positivity)]; norm_num)
    (by rw [abs_of_nonneg (by positivity)]; norm_num)
    (by
      have hv : (3:ℚ)/2 / 2 ^ (-52:ℤ) = 6755399441055744 := by norm_num
      rw [hv]
      exact_mod_cast pyRound_intCast 6755399441055744)
  rw [h]
  norm_num

theorem roundD_150 : roundD (150:ℚ) = 150 := by
  have h := roundD_eq_of (x := (150:ℚ)) (g := -45) (M := 5277655813324800)
    (by norm_num)
    (by rw [abs_of_nonneg (by positivity)]; norm_num)
    (by rw [abs_of_nonneg (by positivity)]; norm_num)
    (by
      have hv : (150:ℚ) / 2 ^ (-45:ℤ) = 5277655813324800 := by norm_num
      rw [hv]
      exact_mod_cast pyRound_intCast 5277655813324800)
  rw [h]
  norm_num

theorem roundD_cex_div :
    roundD ((9007199254740993:ℚ)/100) = (5764607523034236:ℚ) * 2 ^ (-6:ℤ) := by
  have h := roundD_eq_of (x := (9007199254740993:ℚ)/100) (g := -6)
    (M := 5764607523034236)
    (by norm_num)
    (by rw [abs_of_nonneg (by positivity)]; norm_num)
    (by rw [abs_of_nonneg (by positivity)]; norm_num)
    (by
      have hv : (9007199254740993:ℚ)/100 / 2 ^ (-6:ℤ) = 144115188075855888/25 := by
        norm_num
      rw [hv]
      apply pyRound_eq_of_half_lt <;> norm_num)
  rw [h]
  norm_num

theorem roundD_cex_mul100 :
    roundD ((5764607523034236:ℚ) * 2 ^ (-6:ℤ) * 100) = 9007199254740994 := by
  have h := roundD_eq_of (x := (5764607523034236:ℚ) * 2 ^ (-6:ℤ) * 100)
    (g := 1) (M := 4503599627370497)
    (by norm_num)
    (by rw [abs_of_nonneg (by positivity)]; norm_num)
    (by rw [abs_of_nonneg (by positivity)]; norm_num)
    (by
      have hv : (5764607523034236:ℚ) * 2 ^ (-6:ℤ) * 100 / 2 ^ (1:ℤ) =
          36028797018963975/8 := by norm_num
      rw [hv]
      apply pyRound_eq_of_half_lt <;> norm_num)
  rw [h]
  norm_num

/-! ### Concrete evaluations of the two strategies -/

theorem normalize_40_40 : normalize_resp 40 40 = Except.ok 50 := by
  have h := normalize_resp_eval (a := 40) (b := 40) (q := 1/2) (p := 50)
    (show (if (40:ℤ) + 40 = 0 then 1 else 40 + 40) = 80 by norm_num) (by norm_num)
    (by
      have harg : ((40:ℤ):ℚ) / ((80:ℤ):ℚ) = (1:ℚ)/2 := by norm_num
      rw [harg, roundD_half])
    (by rw [abs_of_nonneg (by norm_num)]; norm_num)
    (by
      have harg : (1/2:ℚ) * 100 = 50 := by norm_num
      rw [harg, roundD_50])
    (by rw [abs_of_nonneg (by norm_num)]; norm_num)
  rw [h, show pyRound (50:ℚ) = 50 from by exact_mod_cast pyRound_intCast 50]

theorem normalize_50_50 : normalize_resp 50 50 = Except.ok 50 := by
  have h := normalize_resp_eval (a := 50) (b := 50) (q := 1/2) (p := 50)
    (show (if (50:ℤ) + 50 = 0 then 1 else 50 + 50) = 100 by norm_num) (by norm_num)
    (by
      have harg : ((50:ℤ):ℚ) / ((100:ℤ):ℚ) = (1:ℚ)/2 := by norm_num
      rw [harg, roundD_half])
    (by rw [abs_of_nonneg (by norm_num)]; norm_num)
    (by
      have harg : (1/2:ℚ) * 100 = 50 := by norm_num
      rw [harg, roundD_50])
    (by rw [abs_of_nonneg (by norm_num)]; norm_num)
  rw [h, show pyRound (50:ℚ) = 50 from by exact_mod_cast pyRound_intCast 50]

theorem normalize_150_neg50 : normalize_resp 150 (-50) = Except.ok 150 := by
  have h := normalize_resp_eval (a := 150) (b := -50) (q := 3/2) (p := 150)
    (show (if (150:ℤ) + -50 = 0 then 1 else 150 + -50) = 100 by norm_num) (by norm_num)
    (by
      have harg : ((150:ℤ):ℚ) / ((100:ℤ):ℚ) = (3:ℚ)/2 := by norm_num
      rw [harg, roundD_3half])
    (by rw [abs_of_nonneg (by norm_num)]; norm_num)
    (by
      have harg : (3/2:ℚ) * 100 = 150 := by norm_num
      rw [harg, roundD_150])
    (by rw [abs_of_nonneg (by norm_num)]; norm_num)
  rw [h, show pyRound (150:ℚ) = 150 from by exact_mod_cast pyRound_intCast 150]

theorem normalize_cex :
    normalize_resp 9007199254740993 (-9007199254740893) =
      Except.ok 9007199254740994 := by
  have h := normalize_resp_eval (a := 9007199254740993) (b := -9007199254740893)
    (q := (5764607523034236:ℚ) * 2 ^ (-6:ℤ)) (p := 9007199254740994)
    (show (if (9007199254740993:ℤ) + -9007199254740893 = 0 then 1
      else 9007199254740993 + -9007199254740893) = 100 by norm_num) (by norm_num)
    (by
      have harg : ((9007199254740993:ℤ):ℚ) / ((100:ℤ):ℚ) = (9007199254740993:ℚ)/100 := by
        norm_num
      rw [harg, roundD_cex_div])
    (by rw [abs_of_nonneg (by positivity)]; norm_num)
    (roundD_cex_mul100)
    (by rw [abs_of_nonneg (by norm_num)]; norm_num)
  rw [h, show pyRound ((9007199254740994:ℚ)) = 9007199254740994 from by
    exact_mod_cast pyRound_intCast 9007199254740994]

theorem parsed_empty :
    get_judgment_llm_parsed {} = Except.ok (judgment_of {} 50) := by
  have h : get_judgment_llm_parsed {} =
      Except.map (judgment_of {}) (normalize_resp 50 50) := rfl
  rw [h, normalize_50_50, except_map_ok]

theorem parsed_40_40 :
    get_judgment_llm_parsed (respData 40 40) =
      Except.ok (judgment_of (respData 40 40) 50) := by
  have h : get_judgment_llm_parsed (respData 40 40) =
      Except.map (judgment_of (respData 40 40)) (normalize_resp 40 40) := rfl
  rw [h, normalize_40_40, except_map_ok]

theorem parsed_150 :
    get_judgment_llm_parsed (respData 150 (-50)) =
      Except.ok (judgment_of (respData 150 (-50)) 150) := by
  have h : get_judgment_llm_parsed (respData 150 (-50)) =
      Except.map (judgment_of (respData 150 (-50))) (normalize_resp 150 (-50)) := rfl
  rw [h, normalize_150_neg50, except_map_ok]

theorem parsed_cex :
    get_judgment_llm_parsed (respData 9007199254740993 (-9007199254740893)) =
      Except.ok (judgment_of (respData 9007199254740993 (-9007199254740893))
        9007199254740994) := by
  have h : get_judgment_llm_parsed (respData 9007199254740993 (-9007199254740893)) =
      Except.map (judgment_of (respData 9007199254740993 (-9007199254740893)))
        (normalize_resp 9007199254740993 (-9007199254740893)) := rfl
  rw [h, normalize_cex, except_map_ok]

theorem mock_empty_a (tone : String) :
    (get_judgment_mock "" "" tone).a_responsibility = 0 := by
  rw [get_judgment_mock_a]
  have h0 : ("" : String).length = 0 := rfl
  rw [h0]
  have harg : ((0:ℕ):ℚ) / ((max (0 + 0) 1 : ℕ):ℚ) = 0 := by norm_num
  rw [harg, roundD_zero]
  have h00 : (0:ℚ) * 100 = 0 := by norm_num
  rw [h00, roundD_zero]
  exact_mod_cast pyRound_intCast 0

theorem mock_empty_b (tone : String) :
    (get_judgment_mock "" "" tone).b_responsibility = 100 := by
  rw [get_judgment_mock_b, mock_empty_a]
  norm_num

theorem mock_len30_70_a (tone : String) :
    (get_judgment_mock story_len30 story_len70 tone).a_responsibility = 30 := by
  rw [get_judgment_mock_a]
  have h1 : story_len30.length = 30 := rfl
  have h2 : story_len70.length = 70 := rfl
  rw [h1, h2]
  have harg : ((30:ℕ):ℚ) / ((max (30 + 70) 1 : ℕ):ℚ) = (3:ℚ)/10 := by norm_num
  rw [harg, roundD_3_10, roundD_3_10_mul100]
  exact_mod_cast pyRound_intCast 30

theorem mock_ex_a (tone : String) :
    (get_judgment_mock story_a_ex story_b_ex tone).a_responsibility = 55 := by
  rw [get_judgment_mock_a]
  have h1 : story_a_ex.length = 48 := rfl
  have h2 : story_b_ex.length = 39 := rfl
  rw [h1, h2]
  have harg : ((48:ℕ):ℚ) / ((max (48 + 39) 1 : ℕ):ℚ) = (16:ℚ)/29 := by norm_num
  rw [harg, roundD_16_29, roundD_16_29_mul100, pyRound_c9]

/-- For a genuine percentage split (`a + b = 100`, `0 ≤ a ≤ 100`) the float
normalization returns `a` unchanged: the accumulated rounding error of
`a/100*100` is below `100·2^(-53) + 2^(-46) < 1/2`, so the final
round-to-integer recovers `a` exactly. -/
theorem normalize_percent_id {a b : ℤ} (hsum : a + b = 100) (h0 : 0 ≤ a)
    (h100 : a ≤ 100) : normalize_resp a b = Except.ok a := by
  have ht : (if a + b = 0 then 1 else a + b) = 100 := by
    rw [hsum]
    norm_num
  have ha0 : (0:ℚ) ≤ (a:ℚ) := by exact_mod_cast h0
  have ha100 : (a:ℚ) ≤ 100 := by exact_mod_cast h100
  have hxabs : |(a:ℚ) / ((100:ℤ):ℚ)| ≤ 2 ^ (0:ℤ) := by
    rw [abs_of_nonneg (by positivity)]
    rw [div_le_iff₀ (by norm_num)]
    push_cast
    norm_num
    linarith
  have herr1 : |roundD ((a:ℚ) / ((100:ℤ):ℚ)) - (a:ℚ) / ((100:ℤ):ℚ)| ≤ 2 ^ ((0:ℤ) - 53) :=
    roundD_err (by norm_num) hxabs
  have hx100 : (a:ℚ) / ((100:ℤ):ℚ) * 100 = (a:ℚ) := by
    push_cast
    field_simp
  have hz53 : (0:ℚ) < 2 ^ ((0:ℤ) - 53) := two_zpow_pos _
  have hsmall : (100:ℚ) * 2 ^ ((0:ℤ) - 53) ≤ 1/8 := by norm_num
  have herrP : |roundD ((a:ℚ) / ((100:ℤ):ℚ)) * 100 - (a:ℚ)| ≤ 100 * 2 ^ ((0:ℤ) - 53) := by
    have heq : roundD ((a:ℚ) / ((100:ℤ):ℚ)) * 100 - (a:ℚ)
        = (roundD ((a:ℚ) / ((100:ℤ):ℚ)) - (a:ℚ) / ((100:ℤ):ℚ)) * 100 := by
      rw [sub_mul, hx100]
    rw [heq, abs_mul, abs_of_nonneg (by norm_num : (0:ℚ) ≤ 100)]
    nlinarith [herr1]
  have haabs : |(a:ℚ)| ≤ 100 := by
    rw [abs_of_nonneg ha0]
    exact ha100
  have hqabs : |roundD ((a:ℚ) / ((100:ℤ):ℚ)) * 100| ≤ 2 ^ (7:ℤ) := by
    have h1 : |roundD ((a:ℚ) / ((100:ℤ):ℚ)) * 100|
        ≤ |(a:ℚ)| + |roundD ((a:ℚ) / ((100:ℤ):ℚ)) * 100 - (a:ℚ)| := by
      have := abs_add ((a:ℚ)) (roundD ((a:ℚ) / ((100:ℤ):ℚ)) * 100 - (a:ℚ))
      calc |roundD ((a:ℚ) / ((100:ℤ):ℚ)) * 100|
          = |(a:ℚ) + (roundD ((a:ℚ) / ((100:ℤ):ℚ)) * 100 - (a:ℚ))| := by ring_nf
        _ ≤ _ := this
    have h2 : (2:ℚ) ^ (7:ℤ) = 128 := by norm_num
    rw [h2]
    linarith [herrP, hsmall]
  have herr2 : |roundD (roundD ((a:ℚ) / ((100:ℤ):ℚ)) * 100)
      - roundD ((a:ℚ) / ((100:ℤ):ℚ)) * 100| ≤ 2 ^ ((7:ℤ) - 53) :=
    roundD_err (by norm_num) hqabs
  have hsmall2 : (2:ℚ) ^ ((7:ℤ) - 53) ≤ 1/8 := by norm_num
  have hpa : |roundD (roundD ((a:ℚ) / ((100:ℤ):ℚ)) * 100) - (a:ℚ)| < 1/2 := by
    have h3 := abs_sub_le (roundD (roundD ((a:ℚ) / ((100:ℤ):ℚ)) * 100))
      (roundD ((a:ℚ) / ((100:ℤ):ℚ)) * 100) ((a:ℚ))
    linarith [herr2, herrP, hsmall2, hsmall]
  have hfinal : pyRound (roundD (roundD ((a:ℚ) / ((100:ℤ):ℚ)) * 100)) = a :=
    pyRound_eq_of_abs_lt hpa
  have hq1 : |roundD ((a:ℚ) / ((100:ℤ):ℚ))| < 2 ^ (1024:ℕ) := by
    have h1 : |roundD ((a:ℚ) / ((100:ℤ):ℚ))|
        ≤ |(a:ℚ) / ((100:ℤ):ℚ)| + |roundD ((a:ℚ) / ((100:ℤ):ℚ)) - (a:ℚ) / ((100:ℤ):ℚ)| := by
      have := abs_add ((a:ℚ) / ((100:ℤ):ℚ))
        (roundD ((a:ℚ) / ((100:ℤ):ℚ)) - (a:ℚ) / ((100:ℤ):ℚ))
      calc |roundD ((a:ℚ) / ((100:ℤ):ℚ))|
          = |(a:ℚ) / ((100:ℤ):ℚ) + (roundD ((a:ℚ) / ((100:ℤ):ℚ)) - (a:ℚ) / ((100:ℤ):ℚ))| := by
            ring_nf
        _ ≤ _ := this
    have h2 : (2:ℚ) ^ ((0:ℤ) - 53) ≤ 1 := by norm_num
    have h3 : (2:ℚ) ^ (0:ℤ) = 1 := by norm_num
    have h4 : (3:ℚ) < 2 ^ (1024:ℕ) := by norm_num
    rw [h3] at hxabs
    linarith [herr1, hxabs]
  have hp1 : |roundD (roundD ((a:ℚ) / ((100:ℤ):ℚ)) * 100)| < 2 ^ (1024:ℕ) := by
    have h1 : |roundD (roundD ((a:ℚ) / ((100:ℤ):ℚ)) * 100)|
        ≤ |(a:ℚ)| + |roundD (roundD ((a:ℚ) / ((100:ℤ):ℚ)) * 100) - (a:ℚ)| := by
      have := abs_add ((a:ℚ))
        (roundD (roundD ((a:ℚ) / ((100:ℤ):ℚ)) * 100) - (a:ℚ))
      calc |roundD (roundD ((a:ℚ) / ((100:ℤ):ℚ)) * 100)|
          = |(a:ℚ) + (roundD (roundD ((a:ℚ) / ((100:ℤ):ℚ)) * 100) - (a:ℚ))| := by ring_nf
        _ ≤ _ := this
    have h4 : (200:ℚ) < 2 ^ (1024:ℕ) := by norm_num
    linarith [hpa, haabs]
  have h := normalize_resp_eval ht (by norm_num) rfl hq1 rfl hp1
  rw [h, hfinal]

/-! ### Claim theorems -/

/-- Claim C1: every `Judgment` the program produces satisfies
`a_responsibility + b_responsibility = 100` — unconditionally on the
heuristic path, and for every `Judgment` the LLM path produces
(`b_resp` is assigned `100 - a_resp` in both strategies). -/
theorem sum_invariant :
    (∀ story_a story_b tone : String,
      (get_judgment_mock story_a story_b tone).a_responsibility +
        (get_judgment_mock story_a story_b tone).b_responsibility = 100) ∧
    (∀ (data : LLMData) (j : Judgment),
      get_judgment_llm_parsed data = Except.ok j →
      j.a_responsibility + j.b_responsibility = 100) := by
  constructor
  · intro story_a story_b tone
    rw [get_judgment_mock_b]
    omega
  · intro data j hok
    rw [parsed_def] at hok
    obtain ⟨r, hr, hj⟩ := map_ok_inv hok
    rw [hj, judgment_of_a, judgment_of_b]
    omega

/-- Witness for C1: the sum invariant at the empty response, whose fields
default to 50 and whose parsed judgment is `judgment_of {} 50`. -/
theorem sum_invariant_witness :
    (judgment_of {} 50).a_responsibility + (judgment_of {} 50).b_responsibility = 100 :=
  sum_invariant.2 {} (judgment_of {} 50) parsed_empty

/-- Claim C2: `get_judgment` never fails outward; the single LLM attempt's
outcome is matched exactly once — on any raised exception the result is
exactly `get_judgment_mock story_a story_b tone`, and on normal return the
LLM value is returned unchanged. -/
theorem oracle_fallback_total :
    (∀ e story_a story_b tone : String,
      get_judgment (Except.error e) story_a story_b tone =
        get_judgment_mock story_a story_b tone) ∧
    (∀ (j : Judgment) (story_a story_b tone : String),
      get_judgment (Except.ok j) story_a story_b tone = j) :=
  ⟨fun _ _ _ _ => rfl, fun _ _ _ _ => rfl⟩

/-- Claim C3: `get_judgment_mock` splits responsibility by
`a = round(len_a / max(len_a + len_b, 1) * 100)` in binary64 float
semantics and `b = 100 - a`; for story lengths 30 and 70 the split is
30/70; the result does not depend on `tone`. -/
theorem heuristic_split_formula :
    (∀ story_a story_b tone : String,
      (get_judgment_mock story_a story_b tone).a_responsibility =
        pyRound (roundD (roundD ((story_a.length : ℚ) /
          ((max (story_a.length + story_b.length) 1 : ℕ) : ℚ)) * 100)) ∧
      (get_judgment_mock story_a story_b tone).b_responsibility =
        100 - (get_judgment_mock story_a story_b tone).a_responsibility) ∧
    (∀ story_a story_b tone tone' : String,
      get_judgment_mock story_a story_b tone = get_judgment_mock story_a story_b tone') ∧
    ((get_judgment_mock story_len30 story_len70 "Gentle").a_responsibility = 30 ∧
     (get_judgment_mock story_len30 story_len70 "Gentle").b_responsibility = 70) := by
  refine ⟨fun story_a story_b tone => ⟨rfl, rfl⟩, fun _ _ _ _ => rfl,
    mock_len30_70_a "Gentle", ?_⟩
  rw [get_judgment_mock_b, mock_len30_70_a "Gentle"]
  norm_num

/-- Claim C4: the LLM normalization recomputes the split as
`a' = round(a / total * 100)` (float semantics, `total = a + b` treated as 1
when zero) and `b' = 100 - a'`; in particular `a = 40, b = 40` parses to the
50/50 judgment. -/
theorem llm_normalization :
    (∀ (data : LLMData) (a b : ℤ) (j : Judgment),
      data.a_responsibility = some a → data.b_responsibility = some b →
      get_judgment_llm_parsed data = Except.ok j →
      normalize_resp a b = Except.ok j.a_responsibility ∧
      j.b_responsibility = 100 - j.a_responsibility) ∧
    (get_judgment_llm_parsed (respData 40 40) =
      Except.ok (judgment_of (respData 40 40) 50) ∧
     (judgment_of (respData 40 40) 50).a_responsibility = 50 ∧
     (judgment_of (respData 40 40) 50).b_responsibility = 50) := by
  refine ⟨?_, parsed_40_40, judgment_of_a _ _, ?_⟩
  · intro data a b j ha hb hok
    rw [parsed_def, ha, hb] at hok
    simp only [Option.getD_some] at hok
    obtain ⟨r, hr, hj⟩ := map_ok_inv hok
    constructor
    · rw [hj, judgment_of_a]
      exact hr
    · rw [hj, judgment_of_a, judgment_of_b]
  · rw [judgment_of_b]
    norm_num

/-- Witness for C4: the normalization clause instantiated at the concrete
response `a = 40, b = 40`. -/
theorem llm_normalization_witness :
    normalize_resp 40 40 =
      Except.ok ((judgment_of (respData 40 40) 50).a_responsibility) ∧
    (judgment_of (respData 40 40) 50).b_responsibility =
      100 - (judgment_of (respData 40 40) 50).a_responsibility :=
  llm_normalization.1 (respData 40 40) 40 40 (judgment_of (respData 40 40) 50)
    rfl rfl parsed_40_40

/-- Claim C5 counterexample: the LLM response `a = 150, b = -50` (integer
fields) parses successfully to a judgment with `a_responsibility = 150`,
outside `[0, 100]`. -/
theorem range_invariant_cex :
    get_judgment_llm_parsed (respData 150 (-50)) =
      Except.ok (judgment_of (respData 150 (-50)) 150) ∧
    (judgment_of (respData 150 (-50)) 150).a_responsibility = 150 ∧
    ¬ ((judgment_of (respData 150 (-50)) 150).a_responsibility ≤ 100) := by
  refine ⟨parsed_150, judgment_of_a _ _, ?_⟩
  rw [judgment_of_a]
  norm_num

/-- Claim C5 (amended): both responsibility fields lie in `[0, 100]` for the
heuristic on all inputs; on the LLM path, whenever both extracted
responsibility values (after the default of 50) are nonnegative, parsing
succeeds and both fields of the produced judgment lie in `[0, 100]`. -/
theorem range_invariant_amended :
    (∀ story_a story_b tone : String,
      0 ≤ (get_judgment_mock story_a story_b tone).a_responsibility ∧
      (get_judgment_mock story_a story_b tone).a_responsibility ≤ 100 ∧
      0 ≤ (get_judgment_mock story_a story_b tone).b_responsibility ∧
      (get_judgment_mock story_a story_b tone).b_responsibility ≤ 100) ∧
    (∀ data : LLMData,
      0 ≤ data.a_responsibility.getD 50 → 0 ≤ data.b_responsibility.getD 50 →
      ∃ j, get_judgment_llm_parsed data = Except.ok j ∧
        0 ≤ j.a_responsibility ∧ j.a_responsibility ≤ 100 ∧
        0 ≤ j.b_responsibility ∧ j.b_responsibility ≤ 100) := by
  constructor
  · intro story_a story_b tone
    have hden : (0:ℚ) < ((max (story_a.length + story_b.length) 1 : ℕ):ℚ) := by
      have h : 0 < max (story_a.length + story_b.length) 1 :=
        lt_of_lt_of_le one_pos (le_max_right _ _)
      exact_mod_cast h
    have hx0 : (0:ℚ) ≤ (story_a.length : ℚ) /
        ((max (story_a.length + story_b.length) 1 : ℕ):ℚ) :=
      div_nonneg (by positivity) hden.le
    have hx1 : (story_a.length : ℚ) /
        ((max (story_a.length + story_b.length) 1 : ℕ):ℚ) ≤ 1 := by
      rw [div_le_one hden]
      exact_mod_cast le_trans (Nat.le_add_right _ _) (le_max_left _ _)
    obtain ⟨_, _, _, _, hr0, hr100⟩ := ratio_pipeline hx0 hx1
    rw [get_judgment_mock_b, get_judgment_mock_a]
    omega
  · intro data hA hB
    obtain ⟨r, hok, hr0, hr100⟩ := normalize_ok_of_nonneg hA hB
    refine ⟨judgment_of data r, ?_, ?_, ?_, ?_, ?_⟩
    · rw [parsed_def, hok, except_map_ok]
    · rw [judgment_of_a]
      omega
    · rw [judgment_of_a]
      omega
    · rw [judgment_of_b]
      omega
    · rw [judgment_of_b]
      omega

/-- Witness for C5 (amended): the LLM-path clause at the empty response,
where both fields default to 50. -/
theorem range_invariant_witness :
    ∃ j, get_judgment_llm_parsed {} = Except.ok j ∧
      0 ≤ j.a_responsibility ∧ j.a_responsibility ≤ 100 ∧
      0 ≤ j.b_responsibility ∧ j.b_responsibility ≤ 100 :=
  range_invariant_amended.2 {} (by decide) (by decide)

/-- Claim C6 counterexample: for both narratives empty, the heuristic does
not produce the 50/50 split the claim states — it produces 0/100. -/
theorem degenerate_split_cex :
    ¬ ((get_judgment_mock "" "" "Gentle").a_responsibility = 50 ∧
       (get_judgment_mock "" "" "Gentle").b_responsibility = 50) := by
  intro h
  have ha := mock_empty_a "Gentle"
  omega

/-- Claim C6 (amended): when both narratives are the empty string, the
heuristic output satisfies the sum invariant with a 0/100 split
(`a_responsibility = 0`, `b_responsibility = 100`) via the `max(total, 1)`
guard. -/
theorem degenerate_split_amended :
    ∀ tone : String,
      (get_judgment_mock "" "" tone).a_responsibility = 0 ∧
      (get_judgment_mock "" "" tone).b_responsibility = 100 ∧
      (get_judgment_mock "" "" tone).a_responsibility +
        (get_judgment_mock "" "" tone).b_responsibility = 100 := by
  intro tone
  have ha := mock_empty_a tone
  have hb := mock_empty_b tone
  exact ⟨ha, hb, by omega⟩

/-- Claim C7: for both narratives empty the heuristic's divisor
`max(len_a + len_b, 1)` is nonzero (no division by zero), and the
deterministic tie-break is `a_responsibility = 0`, `b_responsibility = 100`. -/
theorem zero_length_guard :
    ∀ tone : String,
      0 < max (("" : String).length + ("" : String).length) 1 ∧
      (get_judgment_mock "" "" tone).a_responsibility = 0 ∧
      (get_judgment_mock "" "" tone).b_responsibility = 100 := by
  intro tone
  exact ⟨by norm_num, mock_empty_a tone, mock_empty_b tone⟩

/-- Claim C8: each missing text field defaults to the empty string, each
present text field is whitespace-trimmed (full CPython whitespace set), a
missing responsibility field behaves exactly like the value 50, and
`safety_flag` defaults to `false` (a present boolean passes through); in
particular a response missing `advice_a` parses without a crash to a
judgment with `advice_a = ""`. -/
theorem field_defaulting :
    ∀ data : LLMData,
      (get_judgment_llm_parsed { data with a_responsibility := none } =
        get_judgment_llm_parsed { data with a_responsibility := some 50 }) ∧
      (get_judgment_llm_parsed { data with b_responsibility := none } =
        get_judgment_llm_parsed { data with b_responsibility := some 50 }) ∧
      (∀ a2 : ℤ,
        ((judgment_of { data with neutral_summary := none } a2).neutral_summary = "") ∧
        (∀ s, (judgment_of { data with neutral_summary := some s } a2).neutral_summary =
          pyStrip s) ∧
        ((judgment_of { data with advice_a := none } a2).advice_a = "") ∧
        (∀ s, (judgment_of { data with advice_a := some s } a2).advice_a = pyStrip s) ∧
        ((judgment_of { data with advice_b := none } a2).advice_b = "") ∧
        (∀ s, (judgment_of { data with advice_b := some s } a2).advice_b = pyStrip s) ∧
        ((judgment_of { data with apology_template := none } a2).apology_template = "") ∧
        (∀ s, (judgment_of { data with apology_template := some s } a2).apology_template =
          pyStrip s) ∧
        ((judgment_of { data with safety_message := none } a2).safety_message = "") ∧
        (∀ s, (judgment_of { data with safety_message := some s } a2).safety_message =
          pyStrip s) ∧
        ((judgment_of { data with safety_flag := none } a2).safety_flag = false) ∧
        (∀ bv, (judgment_of { data with safety_flag := some bv } a2).safety_flag = bv)) ∧
      (get_judgment_llm_parsed {} = Except.ok (judgment_of {} 50) ∧
       (judgment_of {} 50).advice_a = "") := by
  intro data
  exact ⟨rfl, rfl, fun a2 => ⟨rfl, fun s => rfl, rfl, fun s => rfl, rfl, fun s => rfl,
    rfl, fun s => rfl, rfl, fun s => rfl, rfl, fun bv => rfl⟩, parsed_empty, rfl⟩

/-- Claim C9: on the spec's end-to-end scenario with the LLM attempt
raising, `get_judgment` returns the heuristic Judgment with the 55/45 split,
the fixed generic texts, `safety_flag = false` and `safety_message = ""`. -/
theorem end_to_end_fallback :
    ∀ e tone : String,
      get_judgment (Except.error e) story_a_ex story_b_ex tone =
        { neutral_summary := mockNeutralSummary
          a_responsibility := 55
          b_responsibility := 45
          advice_a := mockAdviceA
          advice_b := mockAdviceB
          apology_template := mockApologyTemplate
          safety_flag := false
          safety_message := "" } := by
  intro e tone
  have hget : get_judgment (Except.error e) story_a_ex story_b_ex tone =
      get_judgment_mock story_a_ex story_b_ex tone := rfl
  have ha := mock_ex_a tone
  have hb : (get_judgment_mock story_a_ex story_b_ex tone).b_responsibility = 45 := by
    rw [get_judgment_mock_b, ha]
    norm_num
  have hmk : get_judgment_mock story_a_ex story_b_ex tone =
      { neutral_summary := mockNeutralSummary
        a_responsibility := (get_judgment_mock story_a_ex story_b_ex tone).a_responsibility
        b_responsibility := (get_judgment_mock story_a_ex story_b_ex tone).b_responsibility
        advice_a := mockAdviceA
        advice_b := mockAdviceB
        apology_template := mockApologyTemplate
        safety_flag := false
        safety_message := "" } := rfl
  rw [hget, hmk, ha, hb]

/-- Claim C10 counterexample: the response `a = 2^53 + 1 = 9007199254740993`,
`b = 100 - a` has integer fields summing to 100, yet the float normalization
returns `a + 1`: the parsed judgment's `a_responsibility` is
9007199254740994, not `a`. -/
theorem normalization_identity_cex :
    (9007199254740993:ℤ) + (-9007199254740893) = 100 ∧
    get_judgment_llm_parsed (respData 9007199254740993 (-9007199254740893)) =
      Except.ok (judgment_of (respData 9007199254740993 (-9007199254740893))
        9007199254740994) ∧
    (judgment_of (respData 9007199254740993 (-9007199254740893))
        9007199254740994).a_responsibility ≠ 9007199254740993 := by
  refine ⟨by norm_num, parsed_cex, ?_⟩
  rw [judgment_of_a]
  norm_num

/-- Claim C10 (amended): the normalization is the identity on
already-consistent splits whose fields are genuine percentages: if
`a + b = 100` with `0 ≤ a ≤ 100`, parsing succeeds and the judgment carries
`a` and `b` unchanged.  (Outside the double-precision safe range the float
arithmetic distorts the value: `a = 2^53 + 1` becomes `2^53 + 2`.) -/
theorem normalization_identity (data : LLMData) (a b : ℤ)
    (ha : data.a_responsibility = some a) (hb : data.b_responsibility = some b)
    (hsum : a + b = 100) (h0 : 0 ≤ a) (h100 : a ≤ 100) :
    ∃ j, get_judgment_llm_parsed data = Except.ok j ∧
      j.a_responsibility = a ∧ j.b_responsibility = b := by
  refine ⟨judgment_of data a, ?_, judgment_of_a _ _, ?_⟩
  · rw [parsed_def, ha, hb]
    simp only [Option.getD_some]
    rw [normalize_percent_id hsum h0 h100, except_map_ok]
  · rw [judgment_of_b]
    omega

/-- Witness for C10 (amended): the identity at the consistent response
`a = 60, b = 40`. -/
theorem normalization_identity_witness :
    ∃ j, get_judgment_llm_parsed (respData 60 40) = Except.ok j ∧
      j.a_responsibility = 60 ∧ j.b_responsibility = 40 :=
  normalization_identity (respData 60 40) 60 40 rfl rfl (by norm_num) (by norm_num)
    (by norm_num)
